import Mathlib

/-!
Shallow embedding of `qutel_car_events/api/uom_helper.py`.

Conventions used throughout:
* Python floats are modelled as rationals (`ℚ`); `frappe.utils.flt` applied to a
  numeric value is the identity, so `flt(d.get(k, default))` becomes
  `Option.getD` on the optional field.
* Date strings are modelled by their parsed ordinals (`Int`); `getdate` is then
  the identity and date comparison is integer comparison.  A missing or empty
  (falsy) date field is `none`.
* The slice of the host platform's document store that the module reads is the
  explicit `DB` structure below; the ERPNext helper
  `erpnext.stock.get_item_details.get_conversion_factor` is an oracle field of
  `DB` returning `Except` (`.error` models a raised exception, `.ok none`
  models a result dictionary without a `conversion_factor` key).
* Python exceptions are modelled by `Except String`; each API function is split
  into a `…_body` (the code inside the `try`) and a wrapper that applies the
  function's `except` handler.
* Result dictionaries whose key sets differ between branches are modelled by
  structures with `Option` fields (`none` = key absent in that branch).
-/

/-- A row of an item's `UOM Conversion Detail` child table (`item.uoms`). -/
structure UOMDetail where
  uom : String
  conversion_factor : ℚ
deriving DecidableEq

/-- The fields of an `Item` document that the module reads. -/
structure ItemDoc where
  stock_uom : String
  uoms : List UOMDetail
deriving DecidableEq

/-- A row of `frappe.get_all("Item", fields=["name", "stock_uom"], ...)`,
together with the `has_variants` flag used in its filter. -/
structure ItemRow where
  name : String
  stock_uom : String
  has_variants : Bool
deriving DecidableEq

/-- A row of the `UOM Conversion Detail` table as queried by parent item. -/
structure ConvRow where
  parent : String
  uom : String
  conversion_factor : ℚ
deriving DecidableEq

/-- The slice of the host platform state read by the module. -/
structure DB where
  /-- `frappe.get_cached_doc("Item", code)`: the item store. -/
  getItem : String → Option ItemDoc
  /-- Truthiness of Stock Settings `allow_uom_with_conversion_rate_defined_in_item`. -/
  allow_uom_conv : Bool
  /-- Fieldnames of `tabCustom Field` rows whose `dt` is `Opportunity Item`. -/
  custom_fields_opportunity_item : List String
  /-- `tabItem` rows in `frappe.get_all` order. -/
  all_items : List ItemRow
  /-- `tabUOM Conversion Detail` rows. -/
  uom_conversion_rows : List ConvRow
  /-- Oracle for `erpnext.stock.get_item_details.get_conversion_factor`. -/
  get_conversion_factor : String → String → Except String (Option ℚ)

/-- Python's `pat in s` substring test on strings. -/
def pyStrContains (s pat : String) : Bool := decide (pat.data <:+: s.data)

/-- Python's `str.lower`, character by character. -/
def pyLower (s : String) : String := String.mk (s.data.map Char.toLower)

/-- `frappe.get_cached_doc("Item", item_code)`: raises `DoesNotExistError`
when the item is missing. -/
def get_cached_doc (db : DB) (item_code : String) : Except String ItemDoc :=
  match db.getItem item_code with
  | some d => Except.ok d
  | none => Except.error ("Item " ++ item_code ++ " not found (DoesNotExistError)")

/-- The dictionary appended for each `uom_detail` row of `item.uoms`. -/
structure UomEntry where
  uom : String
  conversion_factor : ℚ
  is_stock_uom : Bool
deriving DecidableEq

/-- Builds the entry for one `UOM Conversion Detail` row:
`is_stock_uom` is `uom_detail.uom == item.stock_uom`. -/
def toUomEntry (stock_uom : String) (d : UOMDetail) : UomEntry :=
  ⟨d.uom, d.conversion_factor, d.uom == stock_uom⟩

/-- Embedding of Python's `sorted(lst, key=..., reverse=True)` for a boolean
key: Python's sort is stable, so this is a stable sort under the order that
lets `a` precede `b` whenever `key a ≥ key b`; `List.mergeSort` is stable. -/
def pySortedByBoolKeyDesc (key : α → Bool) (l : List α) : List α :=
  List.mergeSort l (fun a b => !key b || key a)

/-- Result dictionary of `get_item_uoms_with_conversion`. -/
structure UomsResult where
  success : Bool
  message : Option String
  item_code : Option String
  stock_uom : Option String
  uoms : List UomEntry
  default_uom : Option String
  allow_uom_conversion : Option Bool
deriving DecidableEq

/-- Body of `get_item_uoms_with_conversion` (the code inside its `try`). -/
def get_item_uoms_with_conversion_body (db : DB) (item_code : String) :
    Except String UomsResult := do
  let item ← get_cached_doc db item_code
  -- `if not item:` is dead: `get_cached_doc` raised already when missing.
  let allow_uom_conversion := db.allow_uom_conv
  let base : UomsResult :=
    { success := true, message := none, item_code := some item_code,
      stock_uom := some item.stock_uom, uoms := [],
      default_uom := some item.stock_uom,
      allow_uom_conversion := some allow_uom_conversion }
  if allow_uom_conversion && !item.uoms.isEmpty then
    let uom_list := item.uoms.map (toUomEntry item.stock_uom)
    return { base with
      uoms := pySortedByBoolKeyDesc (fun x => x.is_stock_uom) uom_list }
  else
    return { base with uoms := [⟨item.stock_uom, 1, true⟩] }

/-- `get_item_uoms_with_conversion`: the empty-`item_code` guard runs before
the `try`; the `except` handler wraps the body. -/
def get_item_uoms_with_conversion (db : DB) (item_code : String) : UomsResult :=
  if item_code = "" then
    { success := false, message := some "Item Code is required",
      item_code := none, stock_uom := none, uoms := [], default_uom := none,
      allow_uom_conversion := none }
  else
    match get_item_uoms_with_conversion_body db item_code with
    | Except.ok r => r
    | Except.error e =>
      { success := false, message := some ("Error fetching UOM data: " ++ e),
        item_code := none, stock_uom := none, uoms := [], default_uom := none,
        allow_uom_conversion := none }

/-- Result dictionary of `get_uom_conversion_factor`. -/
structure ConvResult where
  success : Bool
  message : Option String
  item_code : Option String
  uom : Option String
  conversion_factor : Option ℚ
deriving DecidableEq

/-- Body of `get_uom_conversion_factor` (the code inside its `try`). -/
def get_uom_conversion_factor_body (db : DB) (item_code uom : String) :
    Except String ConvResult := do
  let result ← db.get_conversion_factor item_code uom
  match result with
  | some cf =>
    return { success := true, message := none, item_code := some item_code,
             uom := some uom, conversion_factor := some cf }
  | none =>
    return { success := false,
             message := some ("Conversion factor not found for " ++ uom ++
               " in " ++ item_code),
             item_code := none, uom := none, conversion_factor := none }

/-- `get_uom_conversion_factor`: the emptiness guard runs before the `try`. -/
def get_uom_conversion_factor (db : DB) (item_code uom : String) : ConvResult :=
  if item_code = "" || uom = "" then
    { success := false, message := some "Item Code and UOM are required",
      item_code := none, uom := none, conversion_factor := none }
  else
    match get_uom_conversion_factor_body db item_code uom with
    | Except.ok r => r
    | Except.error e =>
      { success := false,
        message := some ("Error fetching conversion factor: " ++ e),
        item_code := none, uom := none, conversion_factor := none }

/-- One element of the `items` list passed to `get_opportunity_calculations`
(the JSON-string input path of the source is not modelled: the claims concern
lists of item dictionaries, so the input is already the parsed list and the
`isinstance(items, list)` check passes). A `none` field models a missing key. -/
structure OppItemInput where
  item_code : Option String
  qty : Option ℚ
  rate : Option ℚ
  conversion_factor : Option ℚ
  custom__people_qty : Option ℚ
deriving DecidableEq

/-- One element of the `results` list of `get_opportunity_calculations`. -/
structure OppCalcItem where
  item_code : Option String
  qty : ℚ
  rate : ℚ
  conversion_factor : ℚ
  stock_qty : ℚ
  amount : ℚ
  stock_uom_rate : ℚ
  custom__people_qty : ℚ
deriving DecidableEq

/-- The per-item computation of the loop body of `get_opportunity_calculations`:
`flt(item.get(k, default))` is `Option.getD` under the float-as-rational
convention. -/
def calcOppItem (item : OppItemInput) : OppCalcItem :=
  let qty := item.qty.getD 0
  let rate := item.rate.getD 0
  let conversion_factor := item.conversion_factor.getD 1
  let people_qty := item.custom__people_qty.getD 0
  let stock_qty := qty * conversion_factor
  let amount := stock_qty * rate
  let stock_uom_rate := if conversion_factor > 0 then rate / conversion_factor else 0
  ⟨item.item_code, qty, rate, conversion_factor, stock_qty, amount,
    stock_uom_rate, people_qty⟩

/-- One iteration of the loop of `get_opportunity_calculations`: appends the
result and accumulates `total_people` and `total_amount`. -/
def oppCalcStep (acc : List OppCalcItem × ℚ × ℚ) (item : OppItemInput) :
    List OppCalcItem × ℚ × ℚ :=
  let r := calcOppItem item
  (acc.1 ++ [r], acc.2.1 + r.custom__people_qty, acc.2.2 + r.amount)

/-- Result dictionary of `get_opportunity_calculations`. -/
structure OppCalcResult where
  success : Bool
  message : Option String
  items : List OppCalcItem
  total_people_qty : ℚ
  total_amount : ℚ
deriving DecidableEq

/-- Body of `get_opportunity_calculations` (the code inside its `try`); on the
list input path nothing in the body raises. -/
def get_opportunity_calculations_body (items : List OppItemInput) :
    Except String OppCalcResult := do
  let st := items.foldl oppCalcStep ([], 0, 0)
  return { success := true, message := none, items := st.1,
           total_people_qty := st.2.1, total_amount := st.2.2 }

/-- `get_opportunity_calculations` with its `except` handler. -/
def get_opportunity_calculations (items : List OppItemInput) : OppCalcResult :=
  match get_opportunity_calculations_body items with
  | Except.ok r => r
  | Except.error e =>
    { success := false, message := some ("Error calculating amounts: " ++ e),
      items := [], total_people_qty := 0, total_amount := 0 }

/-- One row of the `items` list of the opportunity data passed to
`validate_opportunity_data`; dates are parsed ordinals, `none` means the key
is missing or its value is falsy (empty string). -/
structure OppRowInput where
  custom_event_start_date : Option Int
  custom_event_end_date : Option Int
  custom__people_qty : Option ℚ
deriving DecidableEq

/-- The opportunity data dictionary passed to `validate_opportunity_data`. -/
structure OppDataInput where
  custom_opportunity_start_date : Option Int
  expected_closing : Option Int
  custom_opportunity_people_qty : Option ℚ
  items : List OppRowInput
deriving DecidableEq

/-- Result dictionary of `validate_opportunity_data`. -/
structure ValidationResult where
  success : Bool
  message : Option String
  valid : Option Bool
  errors : List String
  warnings : List String
  total_people_qty : Option ℚ
deriving DecidableEq

/-- Body of `validate_opportunity_data` (the code inside its `try`), faithful
to the source: the function imports only `getdate` and `date_diff` from
`frappe.utils`, and `flt` is neither a module-level nor a builtin name, so the
line `max_people = flt(data.get("custom_opportunity_people_qty", 0))` raises
`NameError` on every call, before any validation logic runs. -/
def validate_opportunity_data_body (d : OppDataInput) :
    Except String ValidationResult := do
  -- errors = []; warnings = []
  let _opp_start_date := d.custom_opportunity_start_date
  let _opp_end_date := d.expected_closing
  -- max_people = flt(...): `flt` is an unresolved name here.
  Except.error "name 'flt' is not defined"

/-- `validate_opportunity_data` with its `except` handler. -/
def validate_opportunity_data (d : OppDataInput) : ValidationResult :=
  match validate_opportunity_data_body d with
  | Except.ok r => r
  | Except.error e =>
    { success := false, message := some ("Error validating data: " ++ e),
      valid := none, errors := [], warnings := [], total_people_qty := none }

/-- The error strings a row contributes in `validate_opportunity_data`
(1-based row index `idx`); each comparison fires only when both dates are
truthy, exactly as in the source. -/
def rowDateErrors (opp_start opp_end : Option Int) (idx : Nat)
    (row : OppRowInput) : List String :=
  (match row.custom_event_start_date, opp_start with
   | some es, some os =>
     if es < os then
       ["Row " ++ toString idx ++
         ": Event start date cannot be before opportunity start date"]
     else []
   | _, _ => []) ++
  (match row.custom_event_end_date, opp_end with
   | some ee, some oe =>
     if ee > oe then
       ["Row " ++ toString idx ++
         ": Event end date cannot be after opportunity expected closing"]
     else []
   | _, _ => []) ++
  (match row.custom_event_start_date, row.custom_event_end_date with
   | some es, some ee =>
     if es > ee then
       ["Row " ++ toString idx ++
         ": Event start date cannot be after event end date"]
     else []
   | _, _ => [])

/-- The function `validate_opportunity_data` as its docstring and the spec
describe it: identical to the source body with the missing `flt` import
supplied (so the `NameError` of `validate_opportunity_data_body` does not
fire). The numeric interpolation of the warning text abstracts Python's float
formatting by the rational's `toString`. -/
def validate_opportunity_data_fixed (d : OppDataInput) : ValidationResult :=
  let opp_start := d.custom_opportunity_start_date
  let opp_end := d.expected_closing
  let max_people := d.custom_opportunity_people_qty.getD 0
  let opp_errors : List String :=
    match opp_start, opp_end with
    | some s, some e =>
      if s > e then
        ["Opportunity start date cannot be after expected closing date"]
      else []
    | _, _ => []
  let item_errors : List String :=
    (List.range d.items.length).flatMap (fun i =>
      match d.items.get? i with
      | some row => rowDateErrors opp_start opp_end (i + 1) row
      | none => [])
  let errors := opp_errors ++ item_errors
  let total_people := (d.items.map (fun row => row.custom__people_qty.getD 0)).sum
  let warnings : List String :=
    if max_people > 0 ∧ total_people > max_people then
      ["Total people quantity (" ++ toString total_people ++
        ") exceeds maximum allowed (" ++ toString max_people ++ ")"]
    else []
  { success := true, message := none, valid := some (errors.length == 0),
    errors := errors, warnings := warnings,
    total_people_qty := some total_people }

/-- Result dictionary of `get_item_uoms_and_conversion`. -/
structure UomAndConvResult where
  success : Bool
  message : Option String
  uoms : List UomEntry
  conversion_factor : ℚ
  stock_uom : Option String
  allow_custom_uom : Option Bool
deriving DecidableEq

/-- Body of `get_item_uoms_and_conversion` (the whole body, including the
empty-`item_code` guard, is inside its `try`). The `uom` argument is
`Option String`; a missing or empty (falsy) `uom` is `none`. -/
def get_item_uoms_and_conversion_body (db : DB) (item_code : String)
    (uom : Option String) : Except String UomAndConvResult := do
  if item_code = "" then
    return { success := false, message := some "Item Code is required",
             uoms := [], conversion_factor := 1, stock_uom := none,
             allow_custom_uom := none }
  let item_doc ← get_cached_doc db item_code
  -- `if not item_doc:` is dead: `get_cached_doc` raised already when missing.
  let stock_uom := item_doc.stock_uom
  let allow_custom_uom := db.allow_uom_conv
  if allow_custom_uom && !item_doc.uoms.isEmpty then
    let uoms := item_doc.uoms.map (toUomEntry stock_uom)
    let cf : ℚ ←
      match uom with
      | none => pure 1  -- `if uom:` is false: conversion_factor keeps 1.0
      | some u =>
        match item_doc.uoms.find? (fun d => d.uom == u) with
        | some d => pure d.conversion_factor
        | none =>
          if u = stock_uom then pure 1
          else do
            let result ← db.get_conversion_factor item_code u
            match result with
            | some f => pure f
            | none => pure 1  -- no conversion_factor key: keeps 1.0
    return { success := true, message := none, uoms := uoms,
             conversion_factor := cf, stock_uom := some stock_uom,
             allow_custom_uom := some allow_custom_uom }
  else
    -- line 343 of the source: `1.0 if not uom or uom == stock_uom else 1.0`
    let cf : ℚ := if uom = none ∨ uom = some stock_uom then 1 else 1
    return { success := true, message := none,
             uoms := [⟨stock_uom, 1, true⟩], conversion_factor := cf,
             stock_uom := some stock_uom,
             allow_custom_uom := some allow_custom_uom }

/-- `get_item_uoms_and_conversion` with its `except` handler. -/
def get_item_uoms_and_conversion (db : DB) (item_code : String)
    (uom : Option String) : UomAndConvResult :=
  match get_item_uoms_and_conversion_body db item_code uom with
  | Except.ok r => r
  | Except.error e =>
    { success := false, message := some ("Error fetching UOM data: " ++ e),
      uoms := [], conversion_factor := 1, stock_uom := none,
      allow_custom_uom := none }

/-- One entry of the `uom_conversions` check of `validate_integration_status`. -/
structure UomConvCheck where
  item : String
  stock_uom : String
  conversions_count : Nat
deriving DecidableEq

/-- Result dictionary of `validate_integration_status` (the nested `checks`
sub-dictionaries are flattened into fields; `none` = key absent). -/
structure IntegrationReport where
  success : Bool
  integration_status : String
  stock_settings_allow : Option Bool
  custom_fields_expected : List String
  custom_fields_found : List String
  custom_fields_missing : List String
  custom_fields_status : Option String
  uom_conversions : List UomConvCheck
  api_endpoints_status : Option String
  warnings : List String
  errors : List String
  message : Option String
deriving DecidableEq

/-- The three custom fields `validate_integration_status` expects on
`Opportunity Item`. -/
def expected_fields : List String :=
  ["custom_stock_qty", "custom_stock_uom_rate", "custom__people_qty"]

/-- Body of `validate_integration_status` (the code inside its outer `try`).
The SQL query returns the `Opportunity Item` custom-field names that are among
the three expected ones; the Python `set` difference is modelled in
`expected_fields` order (the claims do not depend on set iteration order). -/
def validate_integration_status_body (db : DB) :
    Except String IntegrationReport := do
  let found_fields :=
    db.custom_fields_opportunity_item.filter (fun f => expected_fields.contains f)
  let missing_fields :=
    expected_fields.filter (fun f => !found_fields.contains f)
  let errors : List String :=
    if missing_fields.isEmpty then []
    else ["Missing custom fields: " ++ String.intercalate ", " missing_fields]
  let status_after_fields : String :=
    if missing_fields.isEmpty then "healthy" else "error"
  let sample_items := (db.all_items.filter (fun it => !it.has_variants)).take 5
  let uom_conversion_status := sample_items.map (fun it =>
    UomConvCheck.mk it.name it.stock_uom
      ((db.uom_conversion_rows.filter (fun c => c.parent == it.name)).length))
  -- inner try: get_item_uoms_and_conversion never raises (its own handler
  -- catches), so the `except` arm appending a warning is dead in the model
  let test_result := get_item_uoms_and_conversion db "" none
  let api_ok := test_result.success == false &&
    pyStrContains (pyLower (test_result.message.getD "")) "required"
  let warnings : List String :=
    if api_ok then [] else ["API endpoint validation inconclusive"]
  let final_status : String :=
    if !errors.isEmpty then "error"
    else if !warnings.isEmpty then "warning"
    else status_after_fields
  return { success := true, integration_status := final_status,
           stock_settings_allow := some db.allow_uom_conv,
           custom_fields_expected := expected_fields,
           custom_fields_found := found_fields,
           custom_fields_missing := missing_fields,
           custom_fields_status :=
             some (if missing_fields.isEmpty then "OK" else "ERROR"),
           uom_conversions := uom_conversion_status,
           api_endpoints_status := if api_ok then some "OK" else none,
           warnings := warnings, errors := errors, message := none }

/-- `validate_integration_status` with its `except` handler. -/
def validate_integration_status (db : DB) : IntegrationReport :=
  match validate_integration_status_body db with
  | Except.ok r => r
  | Except.error e =>
    { success := false, integration_status := "error",
      stock_settings_allow := none, custom_fields_expected := [],
      custom_fields_found := [], custom_fields_missing := [],
      custom_fields_status := none, uom_conversions := [],
      api_endpoints_status := none, warnings := [], errors := [],
      message := some ("Error validating integration: " ++ e) }

/-! Concrete database instances used by witnesses and counterexamples. -/

/-- Database for the C3 counterexample and witness: item I has a Box row with
factor 12 in its UOM table; two variants differing only in the flag. -/
def c3db_off : DB :=
  { getItem := fun c => if c = "I" then some ⟨"Nos", [⟨"Box", 12⟩]⟩ else none,
    allow_uom_conv := false, custom_fields_opportunity_item := [],
    all_items := [], uom_conversion_rows := [],
    get_conversion_factor := fun _ _ => Except.ok none }

/-- Same store as c3db_off with the Stock Settings flag on. -/
def c3db_on : DB :=
  { getItem := fun c => if c = "I" then some ⟨"Nos", [⟨"Box", 12⟩]⟩ else none,
    allow_uom_conv := true, custom_fields_opportunity_item := [],
    all_items := [], uom_conversion_rows := [],
    get_conversion_factor := fun _ _ => Except.ok none }

/-- Database for the C5 witness: flag on, item J with Box and Nos rows. -/
def c5db : DB :=
  { getItem := fun c =>
      if c = "J" then some ⟨"Nos", [⟨"Box", 12⟩, ⟨"Nos", 1⟩]⟩ else none,
    allow_uom_conv := true, custom_fields_opportunity_item := [],
    all_items := [], uom_conversion_rows := [],
    get_conversion_factor := fun _ _ => Except.ok none }

/-- Database for the C6 witness: flag on, item K with Box and Nos rows. -/
def c6db : DB :=
  { getItem := fun c =>
      if c = "K" then some ⟨"Nos", [⟨"Box", 12⟩, ⟨"Nos", 1⟩]⟩ else none,
    allow_uom_conv := true, custom_fields_opportunity_item := [],
    all_items := [], uom_conversion_rows := [],
    get_conversion_factor := fun _ _ => Except.ok none }

/-- Database for the C7 witness: the item store is empty (so the cached-doc
fetch raises) and the platform lookup raises. -/
def c7db : DB :=
  { getItem := fun _ => none, allow_uom_conv := false,
    custom_fields_opportunity_item := [], all_items := [],
    uom_conversion_rows := [],
    get_conversion_factor := fun _ _ => Except.error "boom" }

/-- Database for the C8 witness: all three expected custom fields exist, two
sample items, one with two conversion rows. -/
def c8db : DB :=
  { getItem := fun _ => none, allow_uom_conv := true,
    custom_fields_opportunity_item :=
      ["custom_stock_qty", "custom_stock_uom_rate", "custom__people_qty",
       "custom_other"],
    all_items := [⟨"A", "Nos", false⟩, ⟨"B", "Nos", true⟩],
    uom_conversion_rows := [⟨"A", "Box", 12⟩, ⟨"A", "Nos", 1⟩, ⟨"C", "Box", 6⟩],
    get_conversion_factor := fun _ _ => Except.ok none }

/-- Database for the C10 witness: flag off, item I with a Box row factor 12. -/
def c10db : DB :=
  { getItem := fun c => if c = "I" then some ⟨"Nos", [⟨"Box", 12⟩]⟩ else none,
    allow_uom_conv := false, custom_fields_opportunity_item := [],
    all_items := [], uom_conversion_rows := [],
    get_conversion_factor := fun _ _ => Except.ok (some 7) }

/-! Helper lemmas. -/

theorem boolKeyLe_trans (key : α → Bool) :
    ∀ a b c : α, (!key b || key a) = true → (!key c || key b) = true →
      (!key c || key a) = true := by
  intro a b c
  cases key a <;> cases key b <;> cases key c <;> simp

theorem boolKeyLe_total (key : α → Bool) :
    ∀ a b : α, ((!key b || key a) || (!key a || key b)) = true := by
  intro a b
  cases key a <;> cases key b <;> simp

theorem filter_append_of_forall {key : α → Bool} {xs ys : List α}
    (hx : ∀ x ∈ xs, key x = true) (hy : ∀ y ∈ ys, key y = false) :
    (xs ++ ys).filter key = xs := by
  rw [List.filter_append, List.filter_eq_self.mpr hx]
  have : ys.filter key = [] := by
    rw [List.filter_eq_nil_iff]
    intro y hyy
    simp [hy y hyy]
  rw [this, List.append_nil]

/-- A stable sort on a boolean key in descending order puts the true-key
elements first, each group in its original relative order. -/
theorem pySortedByBoolKeyDesc_eq_filter (key : α → Bool) :
    ∀ l : List α, pySortedByBoolKeyDesc key l =
      l.filter key ++ l.filter (fun x => !key x) := by
  intro l
  induction l with
  | nil => simp [pySortedByBoolKeyDesc]
  | cons a l ih =>
    obtain ⟨l₁, l₂, h1, h2, h3⟩ :=
      List.mergeSort_cons (boolKeyLe_trans key) (boolKeyLe_total key) a l
    by_cases hka : key a = true
    · have hl₁ : l₁ = [] := by
        rw [List.eq_nil_iff_forall_not_mem]
        intro b hb
        have := h3 b hb
        simp [hka] at this
      rw [pySortedByBoolKeyDesc, h1, hl₁]
      simp only [List.nil_append]
      have hl₂ : l₂ = l.filter key ++ l.filter (fun x => !key x) := by
        rw [hl₁] at h2
        simp only [List.nil_append] at h2
        rw [← h2]
        exact ih
      rw [hl₂]
      simp [List.filter_cons, hka]
    · have hka' : key a = false := by
        cases h : key a
        · rfl
        · exact absurd h hka
      have hl₁T : ∀ b ∈ l₁, key b = true := by
        intro b hb
        have := h3 b hb
        cases h : key b
        · rw [h, hka'] at this
          simp at this
        · rfl
      have hsorted := List.sorted_mergeSort
        (boolKeyLe_trans key) (boolKeyLe_total key) (a :: l)
      rw [h1] at hsorted
      have hl₂F : ∀ y ∈ l₂, key y = false := by
        have hmid := (List.pairwise_append.mp hsorted).2.1
        have := (List.pairwise_cons.mp hmid).1
        intro y hy
        have hle := this y hy
        cases h : key y
        · rfl
        · rw [h, hka'] at hle
          simp at hle
      have hsplit : l₁ ++ l₂ = l.filter key ++ l.filter (fun x => !key x) := by
        rw [← h2, ← pySortedByBoolKeyDesc, ih]
      have hF1T : ∀ x ∈ l.filter key, key x = true := by
        intro x hx
        exact List.of_mem_filter hx
      have hF2F : ∀ x ∈ l.filter (fun x => !key x), key x = false := by
        intro x hx
        have := List.of_mem_filter hx
        simpa using this
      have hl₁ : l₁ = l.filter key := by
        have e1 : (l₁ ++ l₂).filter key = l₁ := filter_append_of_forall hl₁T hl₂F
        have e2 : (l.filter key ++ l.filter (fun x => !key x)).filter key = l.filter key :=
          filter_append_of_forall hF1T hF2F
        rw [← e1, hsplit, e2]
      have hl₂ : l₂ = l.filter (fun x => !key x) := by
        have happ : l₁ ++ l₂ = l₁ ++ l.filter (fun x => !key x) := by
          rw [hsplit, hl₁]
        exact List.append_cancel_left happ
      rw [pySortedByBoolKeyDesc, h1, hl₁, hl₂]
      simp [List.filter_cons, hka']

/-- Unrolling the accumulation loop of `get_opportunity_calculations`. -/
theorem oppCalc_foldl (items : List OppItemInput) :
    ∀ acc : List OppCalcItem × ℚ × ℚ,
      items.foldl oppCalcStep acc =
        (acc.1 ++ items.map calcOppItem,
         acc.2.1 + (items.map (fun it => (calcOppItem it).custom__people_qty)).sum,
         acc.2.2 + (items.map (fun it => (calcOppItem it).amount)).sum) := by
  induction items with
  | nil => intro acc; simp
  | cons a l ih =>
    intro acc
    rw [List.foldl_cons, ih]
    simp [oppCalcStep, add_assoc]

/-- Closed form of `get_opportunity_calculations`. -/
theorem get_opportunity_calculations_eq (items : List OppItemInput) :
    get_opportunity_calculations items =
      { success := true, message := none, items := items.map calcOppItem,
        total_people_qty :=
          (items.map (fun it => (calcOppItem it).custom__people_qty)).sum,
        total_amount := (items.map (fun it => (calcOppItem it).amount)).sum } := by
  unfold get_opportunity_calculations get_opportunity_calculations_body
  rw [show (do
      let st := items.foldl oppCalcStep ([], 0, 0)
      return { success := true, message := none, items := st.1,
               total_people_qty := st.2.1, total_amount := st.2.2 } :
      Except String OppCalcResult) = Except.ok
        { success := true, message := none,
          items := (items.foldl oppCalcStep ([], 0, 0)).1,
          total_people_qty := (items.foldl oppCalcStep ([], 0, 0)).2.1,
          total_amount := (items.foldl oppCalcStep ([], 0, 0)).2.2 } from rfl]
  rw [oppCalc_foldl]
  simp

/-- C1 (amended): for every list of item dictionaries, the result of
get_opportunity_calculations is successful and contains, per input item in
order, stock_qty = qty * conversion_factor, amount = stock_qty * rate and
stock_uom_rate = rate / conversion_factor when conversion_factor > 0 and 0
otherwise (inputs coerced with qty and rate defaulting to 0 and
conversion_factor to 1), with total_amount the sum of the per-item amounts and
total_people_qty the sum of the per-item custom__people_qty values. -/
theorem c1_opportunity_calculations (items : List OppItemInput) :
    (get_opportunity_calculations items).success = true ∧
    (get_opportunity_calculations items).items.length = items.length ∧
    (∀ i, i < items.length →
      ((get_opportunity_calculations items).items[i]?).map
          (fun r => (r.stock_qty, r.amount, r.stock_uom_rate, r.custom__people_qty)) =
        (items[i]?).map (fun it =>
          (it.qty.getD 0 * it.conversion_factor.getD 1,
           it.qty.getD 0 * it.conversion_factor.getD 1 * it.rate.getD 0,
           if 0 < it.conversion_factor.getD 1 then
             it.rate.getD 0 / it.conversion_factor.getD 1 else 0,
           it.custom__people_qty.getD 0))) ∧
    (get_opportunity_calculations items).total_amount =
      ((get_opportunity_calculations items).items.map (fun r => r.amount)).sum ∧
    (get_opportunity_calculations items).total_people_qty =
      ((get_opportunity_calculations items).items.map (fun r => r.custom__people_qty)).sum := by
  rw [get_opportunity_calculations_eq]
  refine ⟨rfl, by simp, ?_, by simp only [List.map_map]; rfl,
    by simp only [List.map_map]; rfl⟩
  intro i _
  simp only [List.getElem?_map]
  cases h : items[i]? with
  | none => simp
  | some it => simp [calcOppItem]

/-- C1 witness: a concrete item with qty 2, rate 3, conversion_factor 4 and
people qty 5 yields stock_qty 8, amount 24, stock_uom_rate 3/4, people 5. -/
theorem c1_witness :
    ((get_opportunity_calculations
        [⟨some "X", some 2, some 3, some 4, some 5⟩]).items[0]?).map
      (fun r => (r.stock_qty, r.amount, r.stock_uom_rate, r.custom__people_qty)) =
      some (8, 24, 3 / 4, 5) := by
  have h := (c1_opportunity_calculations
    [⟨some "X", some 2, some 3, some 4, some 5⟩]).2.2.1 0 (by decide)
  rw [h]
  norm_num

/-- C1 counterexample: with rate 2 and conversion_factor -1 the code returns
stock_uom_rate 0, while the claim's unconditional rate / conversion_factor
would be -2. -/
theorem c1_counterexample :
    ((get_opportunity_calculations [⟨none, none, some 2, some (-1), none⟩]).items.map
      (fun r => r.stock_uom_rate)) = [0] ∧ (2 : ℚ) / (-1) ≠ 0 := by
  constructor
  · rw [get_opportunity_calculations_eq]
    simp only [List.map_map, List.map_cons, List.map_nil, Function.comp]
    norm_num [calcOppItem]
  · norm_num

/-- C2: whenever an item's coerced conversion_factor is zero or negative, the
division branch is not taken and the returned stock_uom_rate is 0. -/
theorem c2_no_division_when_nonpositive (items : List OppItemInput) (i : Nat)
    (it : OppItemInput) (hit : items[i]? = some it)
    (hcf : it.conversion_factor.getD 1 ≤ 0) :
    ((get_opportunity_calculations items).items[i]?).map
      (fun r => r.stock_uom_rate) = some 0 := by
  rw [get_opportunity_calculations_eq]
  simp only [List.getElem?_map, hit]
  show some ((calcOppItem it).stock_uom_rate) = some 0
  simp only [calcOppItem]
  rw [if_neg (not_lt.mpr hcf)]

/-- C2 witness: an item whose conversion_factor is 0 gets stock_uom_rate 0. -/
theorem c2_witness :
    ((get_opportunity_calculations [⟨none, none, some 5, some 0, none⟩]).items[0]?).map
      (fun r => r.stock_uom_rate) = some 0 :=
  c2_no_division_when_nonpositive _ 0 _ rfl (by simp)

theorem except_ok_bind {ε α β : Type} (a : α) (g : α → Except ε β) :
    (Except.ok a : Except ε α) >>= g = g a := rfl

theorem except_error_bind {ε α β : Type} (e : ε) (g : α → Except ε β) :
    (Except.error e : Except ε α) >>= g = Except.error e := rfl

theorem except_pure_eq_ok {ε α : Type} (a : α) :
    (pure a : Except ε α) = Except.ok a := rfl

/-- Closed form of `get_item_uoms_and_conversion` when the Stock Settings flag
is off or the item has no UOM rows. -/
theorem uomsAndConv_eval_off (db : DB) (ic : String) (doc : ItemDoc)
    (u : Option String) (hic : ¬ ic = "") (hdoc : db.getItem ic = some doc)
    (hoff : db.allow_uom_conv = false ∨ doc.uoms = []) :
    get_item_uoms_and_conversion db ic u =
      { success := true, message := none, uoms := [⟨doc.stock_uom, 1, true⟩],
        conversion_factor := 1, stock_uom := some doc.stock_uom,
        allow_custom_uom := some db.allow_uom_conv } := by
  unfold get_item_uoms_and_conversion get_item_uoms_and_conversion_body
  rcases hoff with hoff | hoff <;>
    simp [hic, get_cached_doc, hdoc, hoff, except_ok_bind, except_pure_eq_ok]

/-- In the flag-on branch of `get_item_uoms_and_conversion`, every successful
result carries the item's UOM rows as its `uoms` list. -/
theorem uomsAndConv_uoms_on (db : DB) (ic : String) (doc : ItemDoc)
    (u : Option String) (hic : ¬ ic = "") (hdoc : db.getItem ic = some doc)
    (hon : db.allow_uom_conv = true) (hne : doc.uoms ≠ [])
    (hs : (get_item_uoms_and_conversion db ic u).success = true) :
    (get_item_uoms_and_conversion db ic u).uoms =
      doc.uoms.map (toUomEntry doc.stock_uom) := by
  unfold get_item_uoms_and_conversion get_item_uoms_and_conversion_body at hs ⊢
  cases u with
  | none =>
    simp [hic, get_cached_doc, hdoc, hon, hne, except_ok_bind, except_pure_eq_ok]
  | some u =>
    cases hfind : doc.uoms.find? (fun d => d.uom == u) with
    | some d =>
      simp [hic, get_cached_doc, hdoc, hon, hne, hfind, except_ok_bind,
        except_pure_eq_ok]
    | none =>
      by_cases hsu : u = doc.stock_uom
      · subst hsu
        simp [hic, get_cached_doc, hdoc, hon, hne, hfind, except_ok_bind,
          except_pure_eq_ok]
      · cases horacle : db.get_conversion_factor ic u with
        | ok o =>
          simp [hic, get_cached_doc, hdoc, hon, hne, hfind, hsu, horacle,
            except_ok_bind, except_pure_eq_ok]
          cases o <;> simp
        | error e =>
          simp [hic, get_cached_doc, hdoc, hon, hne, hfind, hsu, horacle,
            except_ok_bind, except_pure_eq_ok, except_error_bind] at hs

/-- Flag-on conversion factor: no `uom` requested keeps the initial 1.0. -/
theorem uomsAndConv_cf_no_uom (db : DB) (ic : String) (doc : ItemDoc)
    (hic : ¬ ic = "") (hdoc : db.getItem ic = some doc)
    (hon : db.allow_uom_conv = true) (hne : doc.uoms ≠ []) :
    (get_item_uoms_and_conversion db ic none).conversion_factor = 1 := by
  unfold get_item_uoms_and_conversion get_item_uoms_and_conversion_body
  simp [hic, get_cached_doc, hdoc, hon, hne, except_ok_bind, except_pure_eq_ok]

/-- Flag-on conversion factor: the requested `uom` appears in the item table. -/
theorem uomsAndConv_cf_found (db : DB) (ic : String) (doc : ItemDoc)
    (u : String) (d : UOMDetail) (hic : ¬ ic = "")
    (hdoc : db.getItem ic = some doc) (hon : db.allow_uom_conv = true)
    (hne : doc.uoms ≠ [])
    (hfind : doc.uoms.find? (fun d => d.uom == u) = some d) :
    (get_item_uoms_and_conversion db ic (some u)).conversion_factor =
      d.conversion_factor := by
  unfold get_item_uoms_and_conversion get_item_uoms_and_conversion_body
  simp [hic, get_cached_doc, hdoc, hon, hne, hfind, except_ok_bind,
    except_pure_eq_ok]

/-- Flag-on conversion factor: the requested `uom` is missing from the table
but equals the stock UOM, so the platform lookup is skipped and 1.0 is used. -/
theorem uomsAndConv_cf_stock (db : DB) (ic : String) (doc : ItemDoc)
    (u : String) (hic : ¬ ic = "") (hdoc : db.getItem ic = some doc)
    (hon : db.allow_uom_conv = true) (hne : doc.uoms ≠ [])
    (hfind : doc.uoms.find? (fun d => d.uom == u) = none)
    (hsu : u = doc.stock_uom) :
    (get_item_uoms_and_conversion db ic (some u)).conversion_factor = 1 := by
  subst hsu
  unfold get_item_uoms_and_conversion get_item_uoms_and_conversion_body
  simp [hic, get_cached_doc, hdoc, hon, hne, hfind, except_ok_bind,
    except_pure_eq_ok]

/-- Flag-on conversion factor: table miss, not the stock UOM, platform lookup
returns a factor. -/
theorem uomsAndConv_cf_oracle (db : DB) (ic : String) (doc : ItemDoc)
    (u : String) (q : ℚ) (hic : ¬ ic = "") (hdoc : db.getItem ic = some doc)
    (hon : db.allow_uom_conv = true) (hne : doc.uoms ≠ [])
    (hfind : doc.uoms.find? (fun d => d.uom == u) = none)
    (hsu : ¬ u = doc.stock_uom)
    (horacle : db.get_conversion_factor ic u = Except.ok (some q)) :
    (get_item_uoms_and_conversion db ic (some u)).conversion_factor = q := by
  unfold get_item_uoms_and_conversion get_item_uoms_and_conversion_body
  simp [hic, get_cached_doc, hdoc, hon, hne, hfind, hsu, horacle,
    except_ok_bind, except_pure_eq_ok]

/-- Flag-on conversion factor: table miss, not the stock UOM, platform lookup
yields no factor; the initial 1.0 survives. -/
theorem uomsAndConv_cf_oracle_none (db : DB) (ic : String) (doc : ItemDoc)
    (u : String) (hic : ¬ ic = "") (hdoc : db.getItem ic = some doc)
    (hon : db.allow_uom_conv = true) (hne : doc.uoms ≠ [])
    (hfind : doc.uoms.find? (fun d => d.uom == u) = none)
    (hsu : ¬ u = doc.stock_uom)
    (horacle : db.get_conversion_factor ic u = Except.ok none) :
    (get_item_uoms_and_conversion db ic (some u)).conversion_factor = 1 := by
  unfold get_item_uoms_and_conversion get_item_uoms_and_conversion_body
  simp [hic, get_cached_doc, hdoc, hon, hne, hfind, hsu, horacle,
    except_ok_bind, except_pure_eq_ok]

/-- Closed form of `get_item_uoms_with_conversion` in the flag-on branch. -/
theorem uomsWithConv_eval_on (db : DB) (ic : String) (doc : ItemDoc)
    (hic : ¬ ic = "") (hdoc : db.getItem ic = some doc)
    (hon : db.allow_uom_conv = true) (hne : doc.uoms ≠ []) :
    get_item_uoms_with_conversion db ic =
      { success := true, message := none, item_code := some ic,
        stock_uom := some doc.stock_uom,
        uoms := pySortedByBoolKeyDesc (fun x => x.is_stock_uom)
          (doc.uoms.map (toUomEntry doc.stock_uom)),
        default_uom := some doc.stock_uom,
        allow_uom_conversion := some db.allow_uom_conv } := by
  unfold get_item_uoms_with_conversion get_item_uoms_with_conversion_body
  simp [hic, get_cached_doc, hdoc, hon, hne, except_ok_bind, except_pure_eq_ok]

/-- Closed form of `get_item_uoms_with_conversion` in the fallback branch. -/
theorem uomsWithConv_eval_off (db : DB) (ic : String) (doc : ItemDoc)
    (hic : ¬ ic = "") (hdoc : db.getItem ic = some doc)
    (hoff : db.allow_uom_conv = false ∨ doc.uoms = []) :
    get_item_uoms_with_conversion db ic =
      { success := true, message := none, item_code := some ic,
        stock_uom := some doc.stock_uom,
        uoms := [⟨doc.stock_uom, 1, true⟩],
        default_uom := some doc.stock_uom,
        allow_uom_conversion := some db.allow_uom_conv } := by
  unfold get_item_uoms_with_conversion get_item_uoms_with_conversion_body
  rcases hoff with hoff | hoff <;>
    simp [hic, get_cached_doc, hdoc, hoff, except_ok_bind, except_pure_eq_ok]

theorem filter_append_of_forall_neg {key : α → Bool} {xs ys : List α}
    (hx : ∀ x ∈ xs, key x = true) (hy : ∀ y ∈ ys, key y = false) :
    (xs ++ ys).filter (fun x => !key x) = ys := by
  rw [List.filter_append]
  have h1 : xs.filter (fun x => !key x) = [] := by
    rw [List.filter_eq_nil_iff]
    intro x hxx
    simp [hx x hxx]
  have h2 : ys.filter (fun x => !key x) = ys := by
    rw [List.filter_eq_self]
    intro y hyy
    simp [hy y hyy]
  rw [h1, h2, List.nil_append]

theorem pairwise_boolKey_append {key : α → Bool} {xs ys : List α}
    (hx : ∀ x ∈ xs, key x = true) (hy : ∀ y ∈ ys, key y = false) :
    (xs ++ ys).Pairwise (fun a b => key b = true → key a = true) := by
  rw [List.pairwise_append]
  refine ⟨List.pairwise_of_forall_mem_list ?_, List.pairwise_of_forall_mem_list ?_, ?_⟩
  · intro a ha b _ _
    exact hx a ha
  · intro a _ b hb hkb
    rw [hy b hb] at hkb
    cases hkb
  · intro a ha b _ _
    exact hx a ha

/-- C3 (amended): in get_item_uoms_and_conversion, when the Stock Settings
flag allows item-defined conversions and the item has UOM rows, the returned
conversion_factor is taken from the item-level UOM table if the requested uom
appears there, else it is 1.0 when the requested uom is the stock UOM, else it
comes from the platform-provided lookup, defaulting to 1.0 when the lookup
yields no factor; when the flag is off or the item has no UOM rows, the factor
is 1.0 regardless of the requested uom. -/
theorem c3_conversion_factor_chain (db : DB) (ic : String) (doc : ItemDoc)
    (u : String) (hic : ic ≠ "") (hdoc : db.getItem ic = some doc) :
    (db.allow_uom_conv = true ∧ doc.uoms ≠ [] →
      (∀ d, doc.uoms.find? (fun d => d.uom == u) = some d →
        (get_item_uoms_and_conversion db ic (some u)).conversion_factor =
          d.conversion_factor) ∧
      (doc.uoms.find? (fun d => d.uom == u) = none → u = doc.stock_uom →
        (get_item_uoms_and_conversion db ic (some u)).conversion_factor = 1) ∧
      (doc.uoms.find? (fun d => d.uom == u) = none → u ≠ doc.stock_uom →
        (∀ q, db.get_conversion_factor ic u = Except.ok (some q) →
          (get_item_uoms_and_conversion db ic (some u)).conversion_factor = q) ∧
        (db.get_conversion_factor ic u = Except.ok none →
          (get_item_uoms_and_conversion db ic (some u)).conversion_factor = 1))) ∧
    ((db.allow_uom_conv = false ∨ doc.uoms = []) →
      (get_item_uoms_and_conversion db ic (some u)).conversion_factor = 1) := by
  constructor
  · rintro ⟨hon, hne⟩
    refine ⟨fun d hf => uomsAndConv_cf_found db ic doc u d hic hdoc hon hne hf,
      fun hf hsu => uomsAndConv_cf_stock db ic doc u hic hdoc hon hne hf hsu,
      fun hf hsu =>
        ⟨fun q ho => uomsAndConv_cf_oracle db ic doc u q hic hdoc hon hne hf hsu ho,
         fun ho => uomsAndConv_cf_oracle_none db ic doc u hic hdoc hon hne hf hsu ho⟩⟩
  · intro hoff
    rw [uomsAndConv_eval_off db ic doc (some u) hic hdoc hoff]

/-- C3 counterexample: with the flag off, the requested uom Box appears in the
item-level UOM table with factor 12, yet the returned conversion_factor is 1,
so the claimed unconditional table-first chain does not hold. -/
theorem c3_counterexample :
    (get_item_uoms_and_conversion c3db_off "I" (some "Box")).conversion_factor = 1 ∧
    ((⟨"Nos", [⟨"Box", 12⟩]⟩ : ItemDoc)).uoms.find? (fun d => d.uom == "Box") =
      some ⟨"Box", 12⟩ ∧
    (1 : ℚ) ≠ 12 := by
  refine ⟨?_, rfl, by norm_num⟩
  rw [uomsAndConv_eval_off c3db_off "I" ⟨"Nos", [⟨"Box", 12⟩]⟩ (some "Box")
    (by decide) rfl (Or.inl rfl)]

/-- C3 witness: with the flag on, the Box factor is read from the table. -/
theorem c3_witness :
    (get_item_uoms_and_conversion c3db_on "I" (some "Box")).conversion_factor = 12 := by
  have h := (c3_conversion_factor_chain c3db_on "I" ⟨"Nos", [⟨"Box", 12⟩]⟩ "Box"
    (by decide) rfl).1 ⟨rfl, by decide⟩
  exact h.1 ⟨"Box", 12⟩ rfl

/-- C5: the UOM lookup functions toggle on the Stock Settings flag: with the
flag set and UOM rows present the returned uoms are exactly the item's rows
with their explicit factors (as reordered by get_item_uoms_with_conversion,
a permutation; get_item_uoms_and_conversion keeps table order on success);
otherwise both return the single stock-UOM entry with factor 1.0. -/
theorem c5_flag_toggles_uoms (db : DB) (ic : String) (doc : ItemDoc)
    (u : Option String) (hic : ic ≠ "") (hdoc : db.getItem ic = some doc) :
    (db.allow_uom_conv = true ∧ doc.uoms ≠ [] →
      ((get_item_uoms_with_conversion db ic).uoms).Perm
        (doc.uoms.map (toUomEntry doc.stock_uom)) ∧
      ((get_item_uoms_and_conversion db ic u).success = true →
        (get_item_uoms_and_conversion db ic u).uoms =
          doc.uoms.map (toUomEntry doc.stock_uom))) ∧
    ((db.allow_uom_conv = false ∨ doc.uoms = []) →
      (get_item_uoms_with_conversion db ic).uoms = [⟨doc.stock_uom, 1, true⟩] ∧
      (get_item_uoms_and_conversion db ic u).uoms = [⟨doc.stock_uom, 1, true⟩]) := by
  constructor
  · rintro ⟨hon, hne⟩
    constructor
    · rw [uomsWithConv_eval_on db ic doc hic hdoc hon hne]
      show (pySortedByBoolKeyDesc (fun x => x.is_stock_uom)
        (doc.uoms.map (toUomEntry doc.stock_uom))).Perm _
      rw [pySortedByBoolKeyDesc_eq_filter]
      exact List.filter_append_perm _ _
    · exact uomsAndConv_uoms_on db ic doc u hic hdoc hon hne
  · intro hoff
    rw [uomsWithConv_eval_off db ic doc hic hdoc hoff,
        uomsAndConv_eval_off db ic doc u hic hdoc hoff]
    exact ⟨rfl, rfl⟩

/-- C5 witness: with the flag on, both functions return exactly the item's two
UOM rows (the first as a permutation, the second in table order). -/
theorem c5_witness :
    ((get_item_uoms_with_conversion c5db "J").uoms).Perm
      [⟨"Box", 12, false⟩, ⟨"Nos", 1, true⟩] ∧
    (get_item_uoms_and_conversion c5db "J" none).uoms =
      [⟨"Box", 12, false⟩, ⟨"Nos", 1, true⟩] := by
  have h := (c5_flag_toggles_uoms c5db "J" ⟨"Nos", [⟨"Box", 12⟩, ⟨"Nos", 1⟩]⟩
    none (by decide) rfl).1 ⟨rfl, by decide⟩
  exact ⟨h.1, h.2 rfl⟩

/-- C6: in the flag-on branch, the uoms list of get_item_uoms_with_conversion
is the item's UOM rows stably sorted by is_stock_uom descending: every entry
marked as the stock UOM precedes every other entry, each of the two groups
keeps the table's relative order, and the is_stock_uom mark is exactly the
test uom == stock_uom. -/
theorem c6_uoms_sorted_stable (db : DB) (ic : String) (doc : ItemDoc)
    (hic : ic ≠ "") (hdoc : db.getItem ic = some doc)
    (hon : db.allow_uom_conv = true) (hne : doc.uoms ≠ []) :
    ((get_item_uoms_with_conversion db ic).uoms).Pairwise
      (fun a b => b.is_stock_uom = true → a.is_stock_uom = true) ∧
    ((get_item_uoms_with_conversion db ic).uoms).filter (fun x => x.is_stock_uom) =
      (doc.uoms.map (toUomEntry doc.stock_uom)).filter (fun x => x.is_stock_uom) ∧
    ((get_item_uoms_with_conversion db ic).uoms).filter (fun x => !x.is_stock_uom) =
      (doc.uoms.map (toUomEntry doc.stock_uom)).filter (fun x => !x.is_stock_uom) ∧
    (∀ x ∈ (get_item_uoms_with_conversion db ic).uoms,
      x.is_stock_uom = (x.uom == doc.stock_uom)) := by
  have hr : (get_item_uoms_with_conversion db ic).uoms =
      (doc.uoms.map (toUomEntry doc.stock_uom)).filter (fun x => x.is_stock_uom) ++
      (doc.uoms.map (toUomEntry doc.stock_uom)).filter (fun x => !x.is_stock_uom) := by
    rw [uomsWithConv_eval_on db ic doc hic hdoc hon hne]
    exact pySortedByBoolKeyDesc_eq_filter _ _
  have hT : ∀ x ∈ (doc.uoms.map (toUomEntry doc.stock_uom)).filter
      (fun x => x.is_stock_uom), x.is_stock_uom = true :=
    fun x hx => List.of_mem_filter hx
  have hF : ∀ x ∈ (doc.uoms.map (toUomEntry doc.stock_uom)).filter
      (fun x => !x.is_stock_uom), x.is_stock_uom = false := by
    intro x hx
    have := List.of_mem_filter hx
    simpa using this
  have hmark : ∀ x ∈ doc.uoms.map (toUomEntry doc.stock_uom),
      x.is_stock_uom = (x.uom == doc.stock_uom) := by
    intro x hx
    obtain ⟨d, _, rfl⟩ := List.mem_map.mp hx
    rfl
  rw [hr]
  refine ⟨pairwise_boolKey_append hT hF, filter_append_of_forall hT hF,
    filter_append_of_forall_neg hT hF, ?_⟩
  intro x hx
  rcases List.mem_append.mp hx with hx | hx
  · exact hmark x (List.mem_filter.mp hx).1
  · exact hmark x (List.mem_filter.mp hx).1

/-- C6 witness: for a concrete item the stock-UOM group of the sorted list is
exactly the table's stock-UOM rows in order. -/
theorem c6_witness :
    ((get_item_uoms_with_conversion c6db "K").uoms).filter (fun x => x.is_stock_uom) =
      ([⟨"Box", 12, false⟩, ⟨"Nos", 1, true⟩] : List UomEntry).filter
        (fun x => x.is_stock_uom) :=
  (c6_uoms_sorted_stable c6db "K" ⟨"Nos", [⟨"Box", 12⟩, ⟨"Nos", 1⟩]⟩
    (by decide) rfl rfl (by decide)).2.1

/-- C10: when the flag is off or the item has no UOM rows, the returned
conversion_factor is 1.0 for every requested uom, and the result does not
depend on the platform conversion-factor lookup at all. -/
theorem c10_flag_off_unit_factor (db : DB) (ic : String) (doc : ItemDoc)
    (u : Option String) (f g : String → String → Except String (Option ℚ))
    (hic : ic ≠ "") (hdoc : db.getItem ic = some doc)
    (hoff : db.allow_uom_conv = false ∨ doc.uoms = []) :
    (get_item_uoms_and_conversion db ic u).conversion_factor = 1 ∧
    get_item_uoms_and_conversion { db with get_conversion_factor := f } ic u =
      get_item_uoms_and_conversion { db with get_conversion_factor := g } ic u := by
  constructor
  · rw [uomsAndConv_eval_off db ic doc u hic hdoc hoff]
  · rw [uomsAndConv_eval_off { db with get_conversion_factor := f } ic doc u hic
      hdoc hoff, uomsAndConv_eval_off { db with get_conversion_factor := g } ic
      doc u hic hdoc hoff]

/-- C10 witness: with the flag off the factor for Box is 1 despite the table
row and an oracle that would return 7. -/
theorem c10_witness :
    (get_item_uoms_and_conversion c10db "I" (some "Box")).conversion_factor = 1 :=
  (c10_flag_off_unit_factor c10db "I" ⟨"Nos", [⟨"Box", 12⟩]⟩ (some "Box")
    (fun _ _ => Except.ok (some 7)) (fun _ _ => Except.ok none)
    (by decide) rfl (Or.inl rfl)).1

theorem pyStrContains_append (p e : String) : pyStrContains (p ++ e) e = true := by
  unfold pyStrContains
  simp only [decide_eq_true_eq, String.data_append]
  exact (List.suffix_append p.data e.data).isInfix

/-- C4: the claimed date-ordering validation never runs: `flt` is not in scope
in validate_opportunity_data, so for the opportunity whose start date (day 2)
is after its expected closing (day 1) the code returns the generic NameError
failure dictionary, while the intended validation (the claim) would return
valid false with a non-empty errors list. -/
theorem c4_flt_name_error :
    validate_opportunity_data ⟨some 2, some 1, none, []⟩ =
      { success := false,
        message := some "Error validating data: name 'flt' is not defined",
        valid := none, errors := [], warnings := [], total_people_qty := none } ∧
    (validate_opportunity_data_fixed ⟨some 2, some 1, none, []⟩).valid =
      some false ∧
    (validate_opportunity_data_fixed ⟨some 2, some 1, none, []⟩).errors ≠ [] := by
  refine ⟨rfl, ?_, ?_⟩ <;>
    norm_num [validate_opportunity_data_fixed, rowDateErrors]

/-- C9: the people-quantity threshold check also never runs because of the
missing `flt` import: for one row with 5 people against a maximum of 3 the
code returns the generic failure dictionary, while the intended logic (the
claim) yields valid true, no errors and a non-empty warnings list. -/
theorem c9_people_warning_not_error :
    (validate_opportunity_data ⟨none, none, some 3, [⟨none, none, some 5⟩]⟩).success
      = false ∧
    (validate_opportunity_data_fixed
      ⟨none, none, some 3, [⟨none, none, some 5⟩]⟩).valid = some true ∧
    (validate_opportunity_data_fixed
      ⟨none, none, some 3, [⟨none, none, some 5⟩]⟩).errors = [] ∧
    (validate_opportunity_data_fixed
      ⟨none, none, some 3, [⟨none, none, some 5⟩]⟩).warnings ≠ [] := by
  refine ⟨rfl, ?_, ?_, ?_⟩ <;>
    norm_num [validate_opportunity_data_fixed, rowDateErrors, List.range_succ, List.range_zero]

/-- C7: every whitelisted function of the module catches exceptions raised in
its body (its `try` block) and returns a dictionary with success false whose
message contains the exception text; the guards that run before the `try`
blocks cannot raise, so no exception propagates. -/
theorem c7_catch_all (db : DB) (ic uomS : String) (u : Option String)
    (items : List OppItemInput) (d : OppDataInput) (e : String) :
    (¬ ic = "" → get_item_uoms_with_conversion_body db ic = Except.error e →
      (get_item_uoms_with_conversion db ic).success = false ∧
      pyStrContains ((get_item_uoms_with_conversion db ic).message.getD "") e
        = true) ∧
    (¬ ic = "" → ¬ uomS = "" →
      get_uom_conversion_factor_body db ic uomS = Except.error e →
      (get_uom_conversion_factor db ic uomS).success = false ∧
      pyStrContains ((get_uom_conversion_factor db ic uomS).message.getD "") e
        = true) ∧
    (get_opportunity_calculations_body items = Except.error e →
      (get_opportunity_calculations items).success = false ∧
      pyStrContains ((get_opportunity_calculations items).message.getD "") e
        = true) ∧
    (validate_opportunity_data_body d = Except.error e →
      (validate_opportunity_data d).success = false ∧
      pyStrContains ((validate_opportunity_data d).message.getD "") e = true) ∧
    (get_item_uoms_and_conversion_body db ic u = Except.error e →
      (get_item_uoms_and_conversion db ic u).success = false ∧
      pyStrContains ((get_item_uoms_and_conversion db ic u).message.getD "") e
        = true) ∧
    (validate_integration_status_body db = Except.error e →
      (validate_integration_status db).success = false ∧
      pyStrContains ((validate_integration_status db).message.getD "") e
        = true) := by
  refine ⟨?_, ?_, ?_, ?_, ?_, ?_⟩
  · intro hic h
    unfold get_item_uoms_with_conversion
    rw [if_neg hic, h]
    exact ⟨rfl, pyStrContains_append _ _⟩
  · intro hic huom h
    unfold get_uom_conversion_factor
    rw [if_neg (by simp [hic, huom]), h]
    exact ⟨rfl, pyStrContains_append _ _⟩
  · intro h
    unfold get_opportunity_calculations
    rw [h]
    exact ⟨rfl, pyStrContains_append _ _⟩
  · intro h
    unfold validate_opportunity_data
    rw [h]
    exact ⟨rfl, pyStrContains_append _ _⟩
  · intro h
    unfold get_item_uoms_and_conversion
    rw [h]
    exact ⟨rfl, pyStrContains_append _ _⟩
  · intro h
    unfold validate_integration_status
    rw [h]
    exact ⟨rfl, pyStrContains_append _ _⟩

/-- C7 witness: three concrete raising bodies all produce caught failures
whose message contains the exception text. -/
theorem c7_witness :
    ((get_item_uoms_with_conversion c7db "X").success = false ∧
      pyStrContains ((get_item_uoms_with_conversion c7db "X").message.getD "")
        "Item X not found (DoesNotExistError)" = true) ∧
    ((get_uom_conversion_factor c7db "X" "B").success = false ∧
      pyStrContains ((get_uom_conversion_factor c7db "X" "B").message.getD "")
        "boom" = true) ∧
    ((validate_opportunity_data ⟨none, none, none, []⟩).success = false ∧
      pyStrContains
        ((validate_opportunity_data ⟨none, none, none, []⟩).message.getD "")
        "name 'flt' is not defined" = true) :=
  ⟨(c7_catch_all c7db "X" "B" none [] ⟨none, none, none, []⟩
      "Item X not found (DoesNotExistError)").1 (by decide) rfl,
   (c7_catch_all c7db "X" "B" none [] ⟨none, none, none, []⟩ "boom").2.1
      (by decide) (by decide) rfl,
   (c7_catch_all c7db "X" "B" none [] ⟨none, none, none, []⟩
      "name 'flt' is not defined").2.2.2.1 rfl⟩

/-- Filtering the expected fields against the queried subset is the same as
filtering them against the full Opportunity Item custom-field list. -/
theorem integ_missing_eq (db : DB) :
    expected_fields.filter (fun f =>
      !((db.custom_fields_opportunity_item.filter
        (fun y => expected_fields.contains y)).contains f)) =
    expected_fields.filter (fun f =>
      !(db.custom_fields_opportunity_item.contains f)) := by
  apply List.filter_congr
  intro f hf
  have h : ((db.custom_fields_opportunity_item.filter
      (fun y => expected_fields.contains y)).contains f) =
      (db.custom_fields_opportunity_item.contains f) := by
    rw [Bool.eq_iff_iff]
    simp [List.mem_filter, hf]
  rw [h]

/-- The API-endpoint self-test of validate_integration_status always takes the
empty-item-code early return. -/
theorem integ_api_test_eq (db : DB) :
    get_item_uoms_and_conversion db "" none =
      { success := false, message := some "Item Code is required", uoms := [],
        conversion_factor := 1, stock_uom := none, allow_custom_uom := none } := by
  unfold get_item_uoms_and_conversion get_item_uoms_and_conversion_body
  rfl

/-- Closed form of validate_integration_status: the API self-test always
passes, so no warning is ever recorded and the status depends only on the
missing custom fields. -/
theorem validate_integration_status_eval (db : DB) :
    validate_integration_status db =
      { success := true,
        integration_status :=
          if (expected_fields.filter (fun f =>
            !(db.custom_fields_opportunity_item.contains f))).isEmpty
          then "healthy" else "error",
        stock_settings_allow := some db.allow_uom_conv,
        custom_fields_expected := expected_fields,
        custom_fields_found := db.custom_fields_opportunity_item.filter
          (fun f => expected_fields.contains f),
        custom_fields_missing := expected_fields.filter (fun f =>
          !(db.custom_fields_opportunity_item.contains f)),
        custom_fields_status := some (if (expected_fields.filter (fun f =>
          !(db.custom_fields_opportunity_item.contains f))).isEmpty
          then "OK" else "ERROR"),
        uom_conversions :=
          ((db.all_items.filter (fun it => !it.has_variants)).take 5).map
            (fun it => ⟨it.name, it.stock_uom,
              (db.uom_conversion_rows.filter
                (fun c => c.parent == it.name)).length⟩),
        api_endpoints_status := some "OK",
        warnings := [],
        errors := if (expected_fields.filter (fun f =>
            !(db.custom_fields_opportunity_item.contains f))).isEmpty then []
          else ["Missing custom fields: " ++ String.intercalate ", "
            (expected_fields.filter (fun f =>
              !(db.custom_fields_opportunity_item.contains f)))],
        message := none } := by
  unfold validate_integration_status validate_integration_status_body
  simp only [except_pure_eq_ok, integ_api_test_eq, integ_missing_eq]
  have hb : (false == false &&
      pyStrContains (pyLower ((some "Item Code is required").getD ""))
        "required") = true := by decide
  simp only [hb]
  by_cases hm : (expected_fields.filter (fun f =>
      !(db.custom_fields_opportunity_item.contains f))).isEmpty = true
  all_goals simp [hm]
  all_goals
    intro x hx hnx
    rw [if_neg (fun hall => hnx (hall x hx))]

/-- C8: validate_integration_status queries the three expected Opportunity
Item custom fields and counts UOM conversion rows for at most five sample
items; its errors list is non-empty exactly when an expected field is missing,
its status is error iff the errors list is non-empty, warning when errors are
empty but warnings are not, and healthy when both are empty. -/
theorem c8_integration_report (db : DB) :
    (validate_integration_status db).success = true ∧
    (validate_integration_status db).custom_fields_missing =
      expected_fields.filter (fun f =>
        !(db.custom_fields_opportunity_item.contains f)) ∧
    ((validate_integration_status db).errors ≠ [] ↔
      ∃ f ∈ expected_fields, f ∉ db.custom_fields_opportunity_item) ∧
    ((validate_integration_status db).integration_status = "error" ↔
      (validate_integration_status db).errors ≠ []) ∧
    ((validate_integration_status db).errors = [] →
      (validate_integration_status db).warnings ≠ [] →
      (validate_integration_status db).integration_status = "warning") ∧
    ((validate_integration_status db).errors = [] →
      (validate_integration_status db).warnings = [] →
      (validate_integration_status db).integration_status = "healthy") ∧
    (validate_integration_status db).uom_conversions =
      ((db.all_items.filter (fun it => !it.has_variants)).take 5).map
        (fun it => ⟨it.name, it.stock_uom,
          (db.uom_conversion_rows.filter (fun c => c.parent == it.name)).length⟩) ∧
    (validate_integration_status db).uom_conversions.length ≤ 5 := by
  have hiff : (expected_fields.filter (fun f =>
      !(db.custom_fields_opportunity_item.contains f))).isEmpty = true ↔
      ¬∃ f ∈ expected_fields, f ∉ db.custom_fields_opportunity_item := by
    rw [List.isEmpty_iff, List.filter_eq_nil_iff]
    simp
  rw [validate_integration_status_eval]
  by_cases hm : (expected_fields.filter (fun f =>
      !(db.custom_fields_opportunity_item.contains f))).isEmpty = true
  · refine ⟨rfl, rfl, ?_, ?_, ?_, ?_, rfl, ?_⟩
    · simp [hm, hiff.mp hm]
    · simp [hm]
    · simp [hm]
    · simp [hm]
    · simp [List.length_take]
  · refine ⟨rfl, rfl, ?_, ?_, ?_, ?_, rfl, ?_⟩
    · simp only [if_neg hm]
      constructor
      · intro _
        by_contra hnone
        exact hm (hiff.mpr hnone)
      · intro _
        simp
    · simp [hm]
    · simp [hm]
    · simp [hm]
    · simp [List.length_take]

/-- C8 witness: with all expected fields present the report is healthy and the
single non-variant sample item counts its two conversion rows. -/
theorem c8_witness :
    (validate_integration_status c8db).integration_status = "healthy" ∧
    (validate_integration_status c8db).uom_conversions =
      [⟨"A", "Nos", 2⟩] := by
  have h := c8_integration_report c8db
  refine ⟨h.2.2.2.2.2.1 ?_ ?_, ?_⟩
  · by_contra hne
    have := (h.2.2.1).mp hne
    revert this
    decide
  · by_cases hw : (validate_integration_status c8db).warnings = []
    · exact hw
    · exfalso
      revert hw
      rw [validate_integration_status_eval]
      simp
  · rw [h.2.2.2.2.2.2.1]
    decide
